import Mathlib

/-!
Shallow embedding of the real-time delivery and presence subsystem of the
chatapp-backend repository: the socket server (second part of
src/models/User.js, lines 126-241 of the combined file), the socket
authentication middleware (src/unnamed/part_002, socketAuth), and the REST
message controller (src/unnamed/part_001, exports.sendMessage).

Database interactions (mongoose save / findById / findByIdAndUpdate) are
modelled as explicit state on association lists, with a small oracle record
deciding which awaited database operation throws, mirroring the try/catch
structure of the handlers.  Socket.IO emission primitives are modelled as
functions computing the list of concrete deliveries (which connection
receives which event with which payload).
-/

namespace ChatApp

/-- A stored user document, restricted to the fields of the mongoose User
schema (src/models/User.js lines 4-88) that the socket layer and the message
controller read or write. -/
structure UserRec where
  username : String
  email : String
  avatar : Option String
  isOnline : Bool
  lastSeen : Nat
  isActive : Bool
deriving DecidableEq

/-- A stored message document (mongoose Message schema, as constructed by the
send-message socket handler: sender, recipient, content, messageType; the
persisted identifier assigned by the store on save). -/
structure MessageRec where
  id : Nat
  sender : String
  recipient : String
  content : String
  messageType : String
deriving DecidableEq

/-- One live socket connection: its socket id, the authenticated user id
(set once by the auth middleware), and the set of rooms it has joined. -/
structure Conn where
  sid : String
  userId : String
  joined : List String
deriving DecidableEq

/-- Payload of an emitted socket event. -/
inductive Payload where
  | pMessage (m : MessageRec)
  | pTyping (userId : String) (isTyping : Bool)
  | pRoom (roomId : String)
  | pError (error : String)
  | pUser (userId : String)
deriving DecidableEq

/-- One concrete delivery: the socket id that receives the event, the event
name, and the payload. -/
structure Delivery where
  target : String
  event : String
  payload : Payload
deriving DecidableEq

/-- The server state: live connections, the user store, the message store,
and the next persisted-message identifier the store will assign. -/
structure ServerState where
  conns : List Conn
  users : List (String × UserRec)
  messages : List MessageRec
  nextId : Nat
deriving DecidableEq

/-- Lookup of a user document by id (mongoose findById on the User
collection, keyed by unique id). -/
def findUser : List (String × UserRec) → String → Option UserRec
  | [], _ => none
  | (k, u) :: rest, uid => if k = uid then some u else findUser rest uid

/-- Update of a user document by id (mongoose findByIdAndUpdate: the unique
document with the given id has the update applied; a no-op when no document
has that id). -/
def updateUser : List (String × UserRec) → String → (UserRec → UserRec) → List (String × UserRec)
  | [], _, _ => []
  | (k, u) :: rest, uid, f =>
      if k = uid then (k, f u) :: rest else (k, u) :: updateUser rest uid f

/-- The connection with the given socket id, when live. -/
def lookupConn (st : ServerState) (sid : String) : Option Conn :=
  st.conns.find? (fun c => c.sid == sid)

/-- socket.to(roomId).emit(ev, p): delivery to every live connection that
joined the room, excluding the emitting socket itself. -/
def emitToRoomFrom (st : ServerState) (senderSid roomId ev : String) (p : Payload) :
    List Delivery :=
  (st.conns.filter (fun c => c.joined.contains roomId && c.sid != senderSid)).map
    (fun c => { target := c.sid, event := ev, payload := p })

/-- socket.broadcast.emit(ev, p): delivery to every live connection except
the emitting socket itself. -/
def broadcastFrom (st : ServerState) (senderSid ev : String) (p : Payload) :
    List Delivery :=
  (st.conns.filter (fun c => c.sid != senderSid)).map
    (fun c => { target := c.sid, event := ev, payload := p })

/-- Payload of the send-message and typing socket events. -/
structure SendData where
  recipient : String
  content : String
  messageType : Option String
deriving DecidableEq

/-- Outcome oracle for the three awaited database operations inside the
send-message handler: message.save(), the read-back
Message.findById(...).populate(...), and User.findByIdAndUpdate on the
sender.  A false field means that await throws. -/
structure DbOutcome where
  saveOk : Bool
  populateOk : Bool
  updateOk : Bool
deriving DecidableEq

/-- The outcome in which every database operation succeeds. -/
def dbAllOk : DbOutcome := { saveOk := true, populateOk := true, updateOk := true }

/-- The message document the send-message handler constructs: sender is the
socket user, recipient/content come from the event data, messageType
defaults to "text" when absent, and the store assigns the next id. -/
def newMessage (st : ServerState) (senderId : String) (data : SendData) : MessageRec :=
  { id := st.nextId
    sender := senderId
    recipient := data.recipient
    content := data.content
    messageType := data.messageType.getD "text" }

/-- The send-message socket handler (src/models/User.js combined file, lines
189-214).  It builds the message, awaits save, awaits the populate
read-back, emits receive-message to the room named by data.recipient
excluding the sender socket, emits message-sent to the sender socket, then
awaits the update of the sender lastSeen; any throw is caught and answered
with a single generic message-error emit to the sender socket.  Note that
the handler consults the user store only for the final lastSeen update of
the sender: the recipient is never looked up. -/
def handleSendMessage (st : ServerState) (sid : String) (data : SendData)
    (db : DbOutcome) (now : Nat) : ServerState × List Delivery :=
  match lookupConn st sid with
  | none => (st, [])
  | some c =>
    if db.saveOk then
      let m := newMessage st c.userId data
      let st1 : ServerState :=
        { st with messages := st.messages ++ [m], nextId := st.nextId + 1 }
      if db.populateOk then
        let ds := emitToRoomFrom st1 sid data.recipient "receive-message" (Payload.pMessage m)
          ++ [{ target := sid, event := "message-sent", payload := Payload.pMessage m }]
        if db.updateOk then
          ({ st1 with users := updateUser st1.users c.userId (fun u => { u with lastSeen := now }) }, ds)
        else
          (st1, ds ++ [{ target := sid, event := "message-error",
                         payload := Payload.pError "Failed to send message" }])
      else
        (st1, [{ target := sid, event := "message-error",
                 payload := Payload.pError "Failed to send message" }])
    else
      (st, [{ target := sid, event := "message-error",
              payload := Payload.pError "Failed to send message" }])

/-- The typing socket handler (combined file lines 216-221): no state
change, one multicast of user-typing to the room named by the recipient,
excluding the sender socket. -/
def handleTyping (st : ServerState) (sid recipient : String) (isTyping : Bool) :
    ServerState × List Delivery :=
  match lookupConn st sid with
  | none => (st, [])
  | some c =>
    (st, emitToRoomFrom st sid recipient "user-typing" (Payload.pTyping c.userId isTyping))

/-- The join-room socket handler (combined file lines 179-182): the socket
joins the caller-supplied room id unchanged and unchecked, and is acked with
joined-room. -/
def handleJoinRoom (st : ServerState) (sid roomId : String) : ServerState × List Delivery :=
  match lookupConn st sid with
  | none => (st, [])
  | some _ =>
    let conns2 := st.conns.map (fun c =>
      if c.sid = sid then
        (if c.joined.contains roomId then c else { c with joined := c.joined ++ [roomId] })
      else c)
    ({ st with conns := conns2 }, [{ target := sid, event := "joined-room", payload := Payload.pRoom roomId }])

/-- The leave-room socket handler (combined file lines 184-187). -/
def handleLeaveRoom (st : ServerState) (sid roomId : String) : ServerState × List Delivery :=
  match lookupConn st sid with
  | none => (st, [])
  | some _ =>
    let conns2 := st.conns.map (fun c =>
      if c.sid = sid then { c with joined := c.joined.filter (fun r => r != roomId) } else c)
    ({ st with conns := conns2 }, [{ target := sid, event := "left-room", payload := Payload.pRoom roomId }])

/-- The disconnect socket handler (combined file lines 223-235): the
transport removes the closed connection; the handler awaits a user-store
update setting lastSeen to now and isOnline to false, then broadcasts
user-offline to every other connection; a throw in the update is caught and
only logged, so no broadcast happens.  There is no check of how many other
connections the same user still has. -/
def handleDisconnect (st : ServerState) (sid : String) (updOk : Bool) (now : Nat) :
    ServerState × List Delivery :=
  match lookupConn st sid with
  | none => (st, [])
  | some c =>
    let st1 : ServerState := { st with conns := st.conns.filter (fun k => k.sid != sid) }
    let users2 := updateUser st1.users c.userId (fun u => { u with lastSeen := now, isOnline := false })
    if updOk then
      ({ st1 with users := users2 }, broadcastFrom st sid "user-offline" (Payload.pUser c.userId))
    else
      (st1, [])

/-- Result of verifying a JWT credential, modelling jwt.verify as an
environment oracle: success with the decoded user id, expiry
(TokenExpiredError), malformedness (JsonWebTokenError), or another token
error. -/
inductive JwtResult where
  | ok (userId : String)
  | expired
  | invalid
  | other
deriving DecidableEq

/-- The three places the socket authentication middleware looks for a
credential: handshake auth, handshake query, authorization header. -/
structure Handshake where
  authToken : Option String
  queryToken : Option String
  headerToken : Option String
deriving DecidableEq

/-- Token extraction of socketAuth (src/unnamed/part_002 lines 11-13):
handshake auth token, else query token, else header token. -/
def handshakeToken (h : Handshake) : Option String :=
  h.authToken <|> (h.queryToken <|> h.headerToken)

/-- The socket authentication middleware (src/unnamed/part_002 lines 8-61):
missing token, failed verification, unknown user and deactivated account
each refuse the connection with the corresponding error; otherwise the
decoded user id is attached to the socket. -/
def socketAuth (verify : String → JwtResult) (users : List (String × UserRec))
    (h : Handshake) : Except String String :=
  match handshakeToken h with
  | none => Except.error "Authentication required"
  | some token =>
    match verify token with
    | JwtResult.ok uid =>
      match findUser users uid with
      | none => Except.error "User not found"
      | some u =>
        if u.isActive then Except.ok uid else Except.error "Account deactivated"
    | JwtResult.expired => Except.error "Token expired"
    | JwtResult.invalid => Except.error "Invalid token"
    | JwtResult.other => Except.error "Token verification failed"

/-- Connection establishment: io.use(socketAuth) runs first; on error the
connection is refused with that reason and the connection callback never
runs; on success the connection callback runs and the socket joins its own
user id as its personal room (combined file lines 172-177). -/
def acceptConnection (verify : String → JwtResult) (st : ServerState) (sid : String)
    (h : Handshake) : ServerState × Option String :=
  match socketAuth verify st.users h with
  | Except.error e => (st, some e)
  | Except.ok uid =>
    ({ st with conns := st.conns ++ [{ sid := sid, userId := uid, joined := [uid] }] }, none)

/-- The inbound socket events whose handlers the connection callback
registers. -/
inductive SocketEvent where
  | joinRoom (roomId : String)
  | leaveRoom (roomId : String)
  | sendMessage (data : SendData) (db : DbOutcome) (now : Nat)
  | typing (recipient : String) (isTyping : Bool)
  | disconnect (updOk : Bool) (now : Nat)
deriving DecidableEq

/-- Dispatch of an inbound event for a socket id: handlers exist only for
live connections, so dispatch for an unknown socket id is a no-op. -/
def handleEvent (st : ServerState) (sid : String) : SocketEvent → ServerState × List Delivery
  | SocketEvent.joinRoom r => handleJoinRoom st sid r
  | SocketEvent.leaveRoom r => handleLeaveRoom st sid r
  | SocketEvent.sendMessage d db now => handleSendMessage st sid d db now
  | SocketEvent.typing r t => handleTyping st sid r t
  | SocketEvent.disconnect ok now => handleDisconnect st sid ok now

/-- Number of live connections belonging to a user (the active-connection
count the spec attributes to a User Presence Record; the source keeps no
such counter, so here it is derived from the connection list). -/
def connCount (st : ServerState) (uid : String) : Nat :=
  (st.conns.filter (fun c => c.userId == uid)).length

/-- Outcome of a REST request: HTTP status and the message field of the
JSON body. -/
structure RestResult where
  status : Nat
  body : String
deriving DecidableEq

/-- The REST send-message controller (src/unnamed/part_001 lines 5-56): it
looks the recipient up in the user store and answers 404 Recipient not
found without persisting when absent; otherwise the message is created and
saved (201), a throw being answered with 500. -/
def restSendMessage (users : List (String × UserRec)) (messages : List MessageRec)
    (nextId : Nat) (senderId recipientId content : String) (messageType : Option String)
    (saveOk : Bool) : List MessageRec × RestResult :=
  match findUser users recipientId with
  | none => (messages, { status := 404, body := "Recipient not found" })
  | some _ =>
    if saveOk then
      (messages ++ [{ id := nextId, sender := senderId, recipient := recipientId,
                      content := content, messageType := messageType.getD "text" }],
       { status := 201, body := "Message sent successfully" })
    else
      (messages, { status := 500, body := "Server error sending message" })

/-- A sample stored user record with the given online flag. -/
def uRec (b : Bool) : UserRec :=
  { username := "u", email := "e", avatar := none, isOnline := b, lastSeen := 0, isActive := true }

/-- A verification oracle that decodes every token string to the user id
equal to the token itself. -/
def verifyId : String → JwtResult := fun t => JwtResult.ok t

/-- Store with users U and W marked online (as the REST login or
update-online-status endpoint would leave them) and no connections yet. -/
def presenceState0 : ServerState :=
  { conns := [], users := [("U", uRec true), ("W", uRec true)], messages := [], nextId := 0 }

/-- State reached from presenceState0 by accepting two connections u1, u2
for user U and one connection w1 for user W. -/
def presenceState : ServerState :=
  (acceptConnection verifyId
    (acceptConnection verifyId
      (acceptConnection verifyId presenceState0 "u1"
        { authToken := some "U", queryToken := none, headerToken := none }).1
      "u2" { authToken := some "U", queryToken := none, headerToken := none }).1
    "w1" { authToken := some "W", queryToken := none, headerToken := none }).1

/-- Store with only user A and a single connection a1 for A. -/
def sendState : ServerState :=
  { conns := [{ sid := "a1", userId := "A", joined := ["A"] }],
    users := [("A", uRec true)], messages := [], nextId := 0 }

/-- Store with users V, M, A, each having one connection joined to its own
personal room. -/
def roomsState : ServerState :=
  { conns := [{ sid := "v1", userId := "V", joined := ["V"] },
              { sid := "m1", userId := "M", joined := ["M"] },
              { sid := "a1", userId := "A", joined := ["A"] }],
    users := [("V", uRec true), ("M", uRec true), ("A", uRec true)],
    messages := [], nextId := 0 }

end ChatApp

namespace ChatApp

/-! ## Helper lemmas about the user store -/

/-- Looking up the updated id after updateUser yields the updated record. -/
theorem findUser_updateUser_self (users : List (String × UserRec)) (uid : String)
    (f : UserRec → UserRec) :
    findUser (updateUser users uid f) uid = (findUser users uid).map f := by
  induction users with
  | nil => rfl
  | cons p rest ih =>
    obtain ⟨k, u⟩ := p
    by_cases h : k = uid <;> simp [updateUser, findUser, h, ih]

/-- Looking up a different id after updateUser is unchanged. -/
theorem findUser_updateUser_other (users : List (String × UserRec)) (uid uid2 : String)
    (f : UserRec → UserRec) (h : uid2 ≠ uid) :
    findUser (updateUser users uid f) uid2 = findUser users uid2 := by
  induction users with
  | nil => rfl
  | cons p rest ih =>
    obtain ⟨k, u⟩ := p
    by_cases hk : k = uid
    · subst hk
      simp [updateUser, findUser, Ne.symm h]
    · by_cases hk2 : k = uid2 <;> simp [updateUser, findUser, hk, hk2, h, ih]

end ChatApp

namespace ChatApp

/-! ## C1: presence flag versus connection count -/

/-- C1 counterexample: user U is online with two live connections u1 and u2;
closing u1 leaves one live connection (count 1 > 0) yet the stored online
flag becomes false, so the flag is not equivalent to count > 0 and closing
one of two connections does not leave online=true. -/
theorem disconnect_one_of_two_sets_offline_cx :
    connCount (handleDisconnect presenceState "u1" true 100).1 "U" = 1 ∧
    findUser (handleDisconnect presenceState "u1" true 100).1.users "U" =
      some { uRec true with lastSeen := 100, isOnline := false } ∧
    ¬ (((findUser (handleDisconnect presenceState "u1" true 100).1.users "U").map
          UserRec.isOnline = some true) ↔
        0 < connCount (handleDisconnect presenceState "u1" true 100).1 "U") := by
  decide

/-- C1 (amended): the source keeps no per-user connection count; presence is
a stored boolean, and the disconnect handler sets it to false (stamping
lastSeen) on every disconnect whose user-store write succeeds, regardless of
how many other connections the same user still has. -/
theorem disconnect_sets_offline_regardless_of_count
    (st : ServerState) (sid : String) (c : Conn) (u : UserRec) (now : Nat)
    (hc : lookupConn st sid = some c) (hu : findUser st.users c.userId = some u) :
    findUser (handleDisconnect st sid true now).1.users c.userId =
      some { u with lastSeen := now, isOnline := false } := by
  simp [handleDisconnect, hc, findUser_updateUser_self, hu]

/-- Witness for the amended C1 theorem at a concrete state. -/
theorem disconnect_sets_offline_regardless_of_count_witness :
    findUser (handleDisconnect presenceState "u2" true 7).1.users "U" =
      some { uRec true with lastSeen := 7, isOnline := false } :=
  disconnect_sets_offline_regardless_of_count presenceState "u2"
    { sid := "u2", userId := "U", joined := ["U"] } (uRec true) 7 (by decide) (by decide)

/-! ## C2: the offline broadcast -/

/-- C2 counterexample: closing connection u1 of user U broadcasts
user-offline to observer w1 although U still has the live connection u2 (so
the broadcast is not restricted to the last connection), and closing both of
U's connections produces two user-offline deliveries to w1, not exactly
one. -/
theorem offline_broadcast_not_only_last_cx :
    connCount (handleDisconnect presenceState "u1" true 10).1 "U" = 1 ∧
    { target := "w1", event := "user-offline", payload := Payload.pUser "U" } ∈
      (handleDisconnect presenceState "u1" true 10).2 ∧
    (((handleDisconnect presenceState "u1" true 10).2 ++
      (handleDisconnect (handleDisconnect presenceState "u1" true 10).1 "u2" true 20).2).filter
        (fun d => d.target == "w1" && d.event == "user-offline")).length = 2 := by
  decide

/-- C2 (amended): every disconnect whose user-store write succeeds emits the
user-offline broadcast to all other live connections, independently of how
many connections the disconnecting user still has; hence closing all of a
user's n connections produces n such broadcasts, one per close. -/
theorem disconnect_broadcasts_offline_every_time
    (st : ServerState) (sid : String) (c : Conn) (now : Nat)
    (hc : lookupConn st sid = some c) :
    (handleDisconnect st sid true now).2 =
      (st.conns.filter (fun k => k.sid != sid)).map
        (fun k => { target := k.sid, event := "user-offline", payload := Payload.pUser c.userId }) := by
  simp [handleDisconnect, hc, broadcastFrom]

/-- Witness for the amended C2 theorem at a concrete state. -/
theorem disconnect_broadcasts_offline_every_time_witness :
    (handleDisconnect presenceState "u1" true 3).2 =
      (presenceState.conns.filter (fun k => k.sid != "u1")).map
        (fun k => { target := k.sid, event := "user-offline", payload := Payload.pUser "U" }) :=
  disconnect_broadcasts_offline_every_time presenceState "u1"
    { sid := "u1", userId := "U", joined := ["U"] } 3 (by decide)

end ChatApp

namespace ChatApp

/-! ## C3: recipient existence checking -/

/-- C3 counterexample: recipient B has no user record, yet the socket
send-message from a1 persists the message and answers message-sent, with no
message-error delivery, because the socket handler never consults the user
store for the recipient. -/
theorem socket_send_no_recipient_check_cx :
    findUser sendState.users "B" = none ∧
    (handleSendMessage sendState "a1"
        { recipient := "B", content := "hi", messageType := some "text" } dbAllOk 5).1.messages =
      [{ id := 0, sender := "A", recipient := "B", content := "hi", messageType := "text" }] ∧
    (handleSendMessage sendState "a1"
        { recipient := "B", content := "hi", messageType := some "text" } dbAllOk 5).2 =
      [{ target := "a1", event := "message-sent",
         payload := Payload.pMessage
           { id := 0, sender := "A", recipient := "B", content := "hi", messageType := "text" } }] := by
  decide

/-- C3 (amended): only the REST send-message controller checks that the
recipient exists, answering 404 Recipient not found with no persistence when
absent; the socket send-message handler performs no recipient-existence
check, so when the store accepts the save it persists the message and emits
message-sent to the sender even though the recipient user is absent. -/
theorem recipient_check_rest_not_socket
    (users : List (String × UserRec)) (messages : List MessageRec) (nid : Nat)
    (senderId rid content : String) (mt : Option String) (saveOk2 : Bool)
    (st : ServerState) (sid : String) (c : Conn) (data : SendData) (db : DbOutcome) (now : Nat)
    (habs : findUser users rid = none)
    (hc : lookupConn st sid = some c)
    (_habs2 : findUser st.users data.recipient = none)
    (hsave : db.saveOk = true) (hpop : db.populateOk = true) :
    restSendMessage users messages nid senderId rid content mt saveOk2 =
      (messages, { status := 404, body := "Recipient not found" }) ∧
    (handleSendMessage st sid data db now).1.messages =
      st.messages ++ [newMessage st c.userId data] ∧
    { target := sid, event := "message-sent",
      payload := Payload.pMessage (newMessage st c.userId data) } ∈
      (handleSendMessage st sid data db now).2 := by
  refine ⟨?_, ?_, ?_⟩
  · simp [restSendMessage, habs]
  · cases hupd : db.updateOk <;> simp [handleSendMessage, hc, hsave, hpop, hupd]
  · cases hupd : db.updateOk <;> simp [handleSendMessage, hc, hsave, hpop, hupd]

/-- Witness for the amended C3 theorem at a concrete state. -/
theorem recipient_check_rest_not_socket_witness :
    restSendMessage sendState.users [] 0 "A" "B" "hi" (some "text") true =
      ([], { status := 404, body := "Recipient not found" }) ∧
    (handleSendMessage sendState "a1"
        { recipient := "B", content := "hi", messageType := some "text" } dbAllOk 5).1.messages =
      sendState.messages ++
        [newMessage sendState "A" { recipient := "B", content := "hi", messageType := some "text" }] ∧
    { target := "a1", event := "message-sent",
      payload := Payload.pMessage
        (newMessage sendState "A" { recipient := "B", content := "hi", messageType := some "text" }) } ∈
      (handleSendMessage sendState "a1"
        { recipient := "B", content := "hi", messageType := some "text" } dbAllOk 5).2 :=
  recipient_check_rest_not_socket sendState.users [] 0 "A" "B" "hi" (some "text") true
    sendState "a1" { sid := "a1", userId := "A", joined := ["A"] }
    { recipient := "B", content := "hi", messageType := some "text" } dbAllOk 5
    (by decide) (by decide) (by decide) (by decide) (by decide)

/-! ## C4: confirmation echoes persistence -/

/-- C4 (confirmed): the sender socket receives message-sent exactly when the
store create pipeline succeeded (message.save() together with the read-back
of the saved document), and whenever that pipeline fails the deliveries are
exactly one message-error to the sender carrying the fixed generic reason,
the same payload for either failing step, so no multicast happens and the
exact cause is not exposed. -/
theorem message_sent_iff_store_create_ok
    (st : ServerState) (sid : String) (c : Conn) (data : SendData) (db : DbOutcome) (now : Nat)
    (hc : lookupConn st sid = some c) :
    ((handleSendMessage st sid data db now).2.any
        (fun d => d.target == sid && d.event == "message-sent")) = (db.saveOk && db.populateOk) ∧
    ((db.saveOk && db.populateOk) = false →
      (handleSendMessage st sid data db now).2 =
        [{ target := sid, event := "message-error",
           payload := Payload.pError "Failed to send message" }]) := by
  cases hs : db.saveOk <;> cases hp : db.populateOk <;> cases hupd : db.updateOk <;>
    simp [handleSendMessage, hc, hs, hp, hupd, emitToRoomFrom]

/-- Witness for the C4 theorem at a concrete state with a failing save. -/
theorem message_sent_iff_store_create_ok_witness :
    ((handleSendMessage sendState "a1"
        { recipient := "B", content := "hi", messageType := none }
        { saveOk := false, populateOk := true, updateOk := true } 0).2.any
      (fun d => d.target == "a1" && d.event == "message-sent")) = (false && true) ∧
    ((false && true) = false →
      (handleSendMessage sendState "a1"
          { recipient := "B", content := "hi", messageType := none }
          { saveOk := false, populateOk := true, updateOk := true } 0).2 =
        [{ target := "a1", event := "message-error",
           payload := Payload.pError "Failed to send message" }]) :=
  message_sent_iff_store_create_ok sendState "a1"
    { sid := "a1", userId := "A", joined := ["A"] }
    { recipient := "B", content := "hi", messageType := none }
    { saveOk := false, populateOk := true, updateOk := true } 0 (by decide)

end ChatApp

namespace ChatApp

/-! ## C5: multi-device fan-out -/

/-- C5 (confirmed): when user uB has connections b1 and b2 joined to the
personal room uB and connection a1 of user uA sends to uB with every store
operation succeeding, then b1 and b2 each receive receive-message carrying
the one persisted message (hence the same persisted identifier), a1 receives
message-sent carrying that same message, and no receive-message delivery
targets a1. -/
theorem multidevice_fanout
    (a1 b1 b2 uA uB : String) (ja jb1 jb2 : List String)
    (users : List (String × UserRec)) (msgs : List MessageRec) (n : Nat)
    (content : String) (now : Nat)
    (hb1 : uB ∈ jb1) (hb2 : uB ∈ jb2) (h1 : b1 ≠ a1) (h2 : b2 ≠ a1) :
    (handleSendMessage
        { conns := [{ sid := a1, userId := uA, joined := ja },
                    { sid := b1, userId := uB, joined := jb1 },
                    { sid := b2, userId := uB, joined := jb2 }],
          users := users, messages := msgs, nextId := n }
        a1 { recipient := uB, content := content, messageType := some "text" } dbAllOk now).2 =
      [{ target := b1, event := "receive-message",
         payload := Payload.pMessage
           { id := n, sender := uA, recipient := uB, content := content, messageType := "text" } },
       { target := b2, event := "receive-message",
         payload := Payload.pMessage
           { id := n, sender := uA, recipient := uB, content := content, messageType := "text" } },
       { target := a1, event := "message-sent",
         payload := Payload.pMessage
           { id := n, sender := uA, recipient := uB, content := content, messageType := "text" } }] ∧
    (∀ d ∈ (handleSendMessage
        { conns := [{ sid := a1, userId := uA, joined := ja },
                    { sid := b1, userId := uB, joined := jb1 },
                    { sid := b2, userId := uB, joined := jb2 }],
          users := users, messages := msgs, nextId := n }
        a1 { recipient := uB, content := content, messageType := some "text" } dbAllOk now).2,
      d.event = "receive-message" → d.target ≠ a1) := by
  have he : (handleSendMessage
        { conns := [{ sid := a1, userId := uA, joined := ja },
                    { sid := b1, userId := uB, joined := jb1 },
                    { sid := b2, userId := uB, joined := jb2 }],
          users := users, messages := msgs, nextId := n }
        a1 { recipient := uB, content := content, messageType := some "text" } dbAllOk now).2 =
      [{ target := b1, event := "receive-message",
         payload := Payload.pMessage
           { id := n, sender := uA, recipient := uB, content := content, messageType := "text" } },
       { target := b2, event := "receive-message",
         payload := Payload.pMessage
           { id := n, sender := uA, recipient := uB, content := content, messageType := "text" } },
       { target := a1, event := "message-sent",
         payload := Payload.pMessage
           { id := n, sender := uA, recipient := uB, content := content, messageType := "text" } }] := by
    simp [handleSendMessage, lookupConn, dbAllOk, emitToRoomFrom, newMessage, List.find?,
      List.filter_cons, hb1, hb2, h1, h2]
  refine ⟨he, ?_⟩
  rw [he]
  intro d hd hev
  simp only [List.mem_cons, List.not_mem_nil, or_false] at hd
  rcases hd with rfl | rfl | rfl
  · exact h1
  · exact h2
  · exact absurd (show ("message-sent" : String) = "receive-message" from hev) (by decide)

/-- Witness for the C5 theorem at a concrete state. -/
theorem multidevice_fanout_witness :
    (handleSendMessage
        { conns := [{ sid := "a1", userId := "A", joined := ["A"] },
                    { sid := "b1", userId := "B", joined := ["B"] },
                    { sid := "b2", userId := "B", joined := ["B"] }],
          users := [], messages := [], nextId := 0 }
        "a1" { recipient := "B", content := "hi", messageType := some "text" } dbAllOk 3).2 =
      [{ target := "b1", event := "receive-message",
         payload := Payload.pMessage
           { id := 0, sender := "A", recipient := "B", content := "hi", messageType := "text" } },
       { target := "b2", event := "receive-message",
         payload := Payload.pMessage
           { id := 0, sender := "A", recipient := "B", content := "hi", messageType := "text" } },
       { target := "a1", event := "message-sent",
         payload := Payload.pMessage
           { id := 0, sender := "A", recipient := "B", content := "hi", messageType := "text" } }] ∧
    (∀ d ∈ (handleSendMessage
        { conns := [{ sid := "a1", userId := "A", joined := ["A"] },
                    { sid := "b1", userId := "B", joined := ["B"] },
                    { sid := "b2", userId := "B", joined := ["B"] }],
          users := [], messages := [], nextId := 0 }
        "a1" { recipient := "B", content := "hi", messageType := some "text" } dbAllOk 3).2,
      d.event = "receive-message" → d.target ≠ "a1") :=
  multidevice_fanout "a1" "b1" "b2" "A" "B" ["A"] ["B"] ["B"] [] [] 0 "hi" 3
    (by decide) (by decide) (by decide) (by decide)

end ChatApp

namespace ChatApp

/-! ## C6: send to a recipient with an empty personal room -/

/-- C6 (confirmed): when no live connection has joined the recipient room
and every store operation succeeds, the message is still persisted and the
only delivery is message-sent to the sender: no receive-message is emitted
to anyone and no error is raised. -/
theorem send_to_empty_room
    (st : ServerState) (sid : String) (c : Conn) (data : SendData) (now : Nat)
    (hc : lookupConn st sid = some c)
    (hempty : ∀ k ∈ st.conns, data.recipient ∉ k.joined) :
    (handleSendMessage st sid data dbAllOk now).1.messages =
      st.messages ++ [newMessage st c.userId data] ∧
    (handleSendMessage st sid data dbAllOk now).2 =
      [{ target := sid, event := "message-sent",
         payload := Payload.pMessage (newMessage st c.userId data) }] := by
  constructor
  · simp [handleSendMessage, hc, dbAllOk]
  · simp [handleSendMessage, hc, dbAllOk, emitToRoomFrom]
    intro a ha hmem
    exact absurd hmem (hempty a ha)

/-- Witness for the C6 theorem at a concrete state: recipient B has no
connection. -/
theorem send_to_empty_room_witness :
    (handleSendMessage sendState "a1"
        { recipient := "B", content := "yo", messageType := none } dbAllOk 9).1.messages =
      sendState.messages ++
        [newMessage sendState "A" { recipient := "B", content := "yo", messageType := none }] ∧
    (handleSendMessage sendState "a1"
        { recipient := "B", content := "yo", messageType := none } dbAllOk 9).2 =
      [{ target := "a1", event := "message-sent",
         payload := Payload.pMessage
           (newMessage sendState "A" { recipient := "B", content := "yo", messageType := none }) }] :=
  send_to_empty_room sendState "a1" { sid := "a1", userId := "A", joined := ["A"] }
    { recipient := "B", content := "yo", messageType := none } 9 (by decide) (by decide)

/-! ## C7: typing events are ephemeral -/

/-- C7 (confirmed): the typing handler leaves the whole server state, in
particular the message store and the user store, unchanged; every delivery
it produces is a user-typing event carrying the sender user id and the
isTyping flag, targeted at a connection other than the sender that joined
the recipient room; and when no connection has joined that room nothing at
all is delivered. -/
theorem typing_is_ephemeral
    (st : ServerState) (sid recipient : String) (c : Conn) (flag : Bool)
    (hc : lookupConn st sid = some c) :
    (handleTyping st sid recipient flag).1 = st ∧
    (∀ d ∈ (handleTyping st sid recipient flag).2,
        d.event = "user-typing" ∧ d.payload = Payload.pTyping c.userId flag ∧
        ∃ k ∈ st.conns, d.target = k.sid ∧ recipient ∈ k.joined ∧ k.sid ≠ sid) ∧
    ((∀ k ∈ st.conns, recipient ∉ k.joined) → (handleTyping st sid recipient flag).2 = []) := by
  refine ⟨by simp [handleTyping, hc], ?_, ?_⟩
  · intro d hd
    have hd2 : d ∈ emitToRoomFrom st sid recipient "user-typing"
        (Payload.pTyping c.userId flag) := by
      simpa [handleTyping, hc] using hd
    rw [emitToRoomFrom] at hd2
    obtain ⟨k, hk, rfl⟩ := List.mem_map.mp hd2
    obtain ⟨hkc, hcond⟩ := List.mem_filter.mp hk
    rw [Bool.and_eq_true] at hcond
    obtain ⟨hroom, hs⟩ := hcond
    refine ⟨rfl, rfl, k, hkc, rfl, ?_, ?_⟩
    · simpa using hroom
    · simpa using hs
  · intro hempty
    simp [handleTyping, hc, emitToRoomFrom]
    intro a ha hmem
    exact absurd hmem (hempty a ha)

/-- Witness for the C7 theorem at a concrete state with an empty recipient
room. -/
theorem typing_is_ephemeral_witness :
    (handleTyping sendState "a1" "B" true).1 = sendState ∧
    (handleTyping sendState "a1" "B" true).2 = [] :=
  ⟨(typing_is_ephemeral sendState "a1" "B" { sid := "a1", userId := "A", joined := ["A"] } true
      (by decide)).1,
   (typing_is_ephemeral sendState "a1" "B" { sid := "a1", userId := "A", joined := ["A"] } true
      (by decide)).2.2 (by decide)⟩

end ChatApp

namespace ChatApp

/-! ## C8: failed authentication refuses the connection -/

/-- C8 (confirmed): whenever the socket authentication middleware rejects
the handshake (missing token, invalid, expired or otherwise failing token,
unknown user, deactivated account all yield an error), the connection
attempt leaves the server state unchanged and reports the denial reason, and
for a socket id that never became a live connection every event dispatch,
for every kind of event, is a no-op with no deliveries: its handlers never
run. -/
theorem auth_failure_refuses_connection
    (verify : String → JwtResult) (st : ServerState) (sid : String) (hs : Handshake)
    (e : String)
    (ha : socketAuth verify st.users hs = Except.error e)
    (hfresh : lookupConn st sid = none) :
    acceptConnection verify st sid hs = (st, some e) ∧
    ∀ ev : SocketEvent, handleEvent st sid ev = (st, []) := by
  constructor
  · simp [acceptConnection, ha]
  · intro ev
    cases ev <;>
      simp [handleEvent, handleJoinRoom, handleLeaveRoom, handleSendMessage,
        handleTyping, handleDisconnect, hfresh]

/-- Witness for the C8 theorem: a handshake whose token fails verification
is refused and a sample event for the refused socket id is a no-op. -/
theorem auth_failure_refuses_connection_witness :
    acceptConnection (fun _ => JwtResult.invalid) sendState "x9"
      { authToken := some "t", queryToken := none, headerToken := none } =
      (sendState, some "Invalid token") ∧
    handleEvent sendState "x9" (SocketEvent.joinRoom "r") = (sendState, []) :=
  ⟨(auth_failure_refuses_connection (fun _ => JwtResult.invalid) sendState "x9"
      { authToken := some "t", queryToken := none, headerToken := none }
      "Invalid token" rfl (by decide)).1,
   (auth_failure_refuses_connection (fun _ => JwtResult.invalid) sendState "x9"
      { authToken := some "t", queryToken := none, headerToken := none }
      "Invalid token" rfl (by decide)).2 (SocketEvent.joinRoom "r")⟩

/-! ## C9: room identifier collision with personal rooms -/

/-- C9 (confirmed): join-room does not collision-check caller-supplied room
identifiers against personal rooms: connection m1 of user M issues join-room
with the personal-room identifier V of another user, becomes a member of
that personal room, and thereafter receives the receive-message multicast of
a direct message sent to user V. -/
theorem room_collision_leaks_direct_messages :
    (lookupConn (handleJoinRoom roomsState "m1" "V").1 "m1").map Conn.joined =
      some ["M", "V"] ∧
    { target := "m1", event := "receive-message",
      payload := Payload.pMessage
        { id := 0, sender := "A", recipient := "V", content := "hi", messageType := "text" } } ∈
      (handleSendMessage (handleJoinRoom roomsState "m1" "V").1 "a1"
        { recipient := "V", content := "hi", messageType := some "text" } dbAllOk 7).2 := by
  decide

/-! ## C10: send updates only the sender lastSeen -/

/-- C10 (confirmed): a fully successful socket send persists the message
and, beyond that, updates exactly the lastSeen field of the sender user
record to the current time; every other user record, in particular the
recipient record when the recipient differs from the sender, is untouched,
and the connection list is unchanged. -/
theorem send_updates_only_sender_lastSeen
    (st : ServerState) (sid : String) (c : Conn) (u : UserRec) (data : SendData) (now : Nat)
    (hc : lookupConn st sid = some c) (hu : findUser st.users c.userId = some u) :
    findUser (handleSendMessage st sid data dbAllOk now).1.users c.userId =
      some { u with lastSeen := now } ∧
    (∀ uid, uid ≠ c.userId →
      findUser (handleSendMessage st sid data dbAllOk now).1.users uid =
        findUser st.users uid) ∧
    (handleSendMessage st sid data dbAllOk now).1.messages =
      st.messages ++ [newMessage st c.userId data] ∧
    (handleSendMessage st sid data dbAllOk now).1.conns = st.conns := by
  refine ⟨?_, ?_, ?_, ?_⟩
  · simp [handleSendMessage, hc, dbAllOk, findUser_updateUser_self, hu]
  · intro uid hne
    simp [handleSendMessage, hc, dbAllOk, findUser_updateUser_other st.users c.userId uid _ hne]
  · simp [handleSendMessage, hc, dbAllOk]
  · simp [handleSendMessage, hc, dbAllOk]

/-- Witness for the C10 theorem at a concrete state, checking the recipient
record of user W is untouched while the sender record of user U gets the new
lastSeen. -/
theorem send_updates_only_sender_lastSeen_witness :
    findUser (handleSendMessage presenceState "u1"
        { recipient := "W", content := "hi", messageType := none } dbAllOk 42).1.users "U" =
      some { uRec true with lastSeen := 42 } ∧
    findUser (handleSendMessage presenceState "u1"
        { recipient := "W", content := "hi", messageType := none } dbAllOk 42).1.users "W" =
      findUser presenceState.users "W" :=
  ⟨(send_updates_only_sender_lastSeen presenceState "u1"
      { sid := "u1", userId := "U", joined := ["U"] } (uRec true)
      { recipient := "W", content := "hi", messageType := none } 42 (by decide) (by decide)).1,
   (send_updates_only_sender_lastSeen presenceState "u1"
      { sid := "u1", userId := "U", joined := ["U"] } (uRec true)
      { recipient := "W", content := "hi", messageType := none } 42 (by decide) (by decide)).2.1
     "W" (by decide)⟩

end ChatApp
